import Mathlib

/-!
Verification of `src/Arch/ArmNative/types.h`, a portability header that
defines Windows/COM primitive types (`UINT`, `DWORD`, `GUID`, `IUnknown`,
`HRESULT`, ...) for non-Windows builds.

The header's non-Windows branch is a list of C `typedef`s whose widths are
those of the underlying C data model of the target platform.  We embed the
relevant C data models explicitly: ILP32 (32-bit Unix/ARM), LP64 (64-bit
Unix), LLP64 (64-bit Windows).  C struct layout follows the usual natural
alignment rules (each scalar aligned to its size, struct size rounded up to
the largest member alignment), which is what every mainstream ABI for these
data models does.
-/

/-- A C data model: bit widths of the fundamental types. -/
structure DataModel where
  charBits : Nat
  shortBits : Nat
  intBits : Nat
  longBits : Nat
  ptrBits : Nat
  wcharBits : Nat
deriving DecidableEq, Repr

/-- The 32-bit Unix/ARM data model: int and long are 32 bits. -/
def ILP32 : DataModel := ⟨8, 16, 32, 32, 32, 32⟩

/-- The 64-bit Unix data model (Linux, macOS): long and pointers are 64 bits. -/
def LP64 : DataModel := ⟨8, 16, 32, 64, 64, 32⟩

/-- The 64-bit Windows data model: long stays 32 bits, pointers are 64 bits. -/
def LLP64 : DataModel := ⟨8, 16, 32, 32, 64, 16⟩

/-- The data models on which the non-Windows branch of the header is
compiled (the `#else` branch: 32-bit and 64-bit Unix-like targets). -/
def nonWindowsModels : List DataModel := [ILP32, LP64]

/-- The C types appearing in the header.  The only struct in the file is
`struct _GUID`, represented by its own constructor; its field list is given
separately by `GUID_fieldTypes`. -/
inductive CType where
  | intT (bits : Nat) (signed : Bool)
  | charT
  | wcharT
  | voidT
  | ptr (t : CType)
  | ref (t : CType)
  | arrayT (t : CType) (n : Nat)
  | guidT
deriving DecidableEq, Repr

namespace CTy

/-- typedef unsigned long UINT; -/
def UINT (dm : DataModel) : CType := .intT dm.longBits false

/-- typedef int INT; -/
def INT (dm : DataModel) : CType := .intT dm.intBits true

/-- typedef long BOOL; -/
def BOOL (dm : DataModel) : CType := .intT dm.longBits true

/-- typedef unsigned char BYTE; -/
def BYTE (dm : DataModel) : CType := .intT dm.charBits false

/-- typedef long LONG; -/
def LONG (dm : DataModel) : CType := .intT dm.longBits true

/-- typedef unsigned long ULONG; -/
def ULONG (dm : DataModel) : CType := .intT dm.longBits false

/-- typedef unsigned short WORD; -/
def WORD (dm : DataModel) : CType := .intT dm.shortBits false

/-- typedef unsigned long DWORD; -/
def DWORD (dm : DataModel) : CType := .intT dm.longBits false

/-- typedef unsigned short VARTYPE; -/
def VARTYPE (dm : DataModel) : CType := .intT dm.shortBits false

/-- typedef unsigned short USHORT; -/
def USHORT (dm : DataModel) : CType := .intT dm.shortBits false

/-- typedef DWORD LCID; -/
def LCID (dm : DataModel) : CType := DWORD dm

/-- typedef LONG SCODE; -/
def SCODE (dm : DataModel) : CType := LONG dm

/-- typedef short SHORT; -/
def SHORT (dm : DataModel) : CType := .intT dm.shortBits true

/-- typedef wchar_t WCHAR; -/
def WCHAR : CType := .wcharT

/-- typedef WCHAR TCHAR; -/
def TCHAR : CType := WCHAR

/-- typedef WCHAR OLECHAR; -/
def OLECHAR : CType := WCHAR

/-- typedef struct _GUID \x7b ... \x7d GUID; -/
def GUID : CType := .guidT

/-- typedef GUID IID; -/
def IID : CType := GUID

/-- typedef IID* LPIID; -/
def LPIID : CType := .ptr IID

/-- typedef void* HWND; -/
def HWND : CType := .ptr .voidT

/-- typedef void* HMENU; -/
def HMENU : CType := .ptr .voidT

/-- typedef void* HANDLE; -/
def HANDLE : CType := .ptr .voidT

/-- typedef GUID & REFGUID; -/
def REFGUID : CType := .ref GUID

/-- typedef IID & REFIID; -/
def REFIID : CType := .ref IID

/-- typedef int HRESULT; -/
def HRESULT (dm : DataModel) : CType := .intT dm.intBits true

/-- typedef char* LPWSTR; -/
def LPWSTR : CType := .ptr .charT

end CTy

/-- The declared member types of `struct _GUID`, in declaration order:
`DWORD Data1; WORD Data2; WORD Data3; BYTE Data4[8];`. -/
def GUID_fieldTypes (dm : DataModel) : List CType :=
  [CTy.DWORD dm, CTy.WORD dm, CTy.WORD dm, .arrayT (CTy.BYTE dm) 8]

/-- Round `o` up to the next multiple of the alignment `a`. -/
def alignUp (o a : Nat) : Nat := ((o + a - 1) / a) * a

/-- Alignment of a non-struct C type: scalars are naturally aligned
(alignment = size), arrays take the element alignment. -/
def alignOfScalar (dm : DataModel) : CType → Nat
  | .intT bits _ => bits / 8
  | .charT => 1
  | .wcharT => dm.wcharBits / 8
  | .voidT => 1
  | .ptr _ => dm.ptrBits / 8
  | .ref _ => dm.ptrBits / 8
  | .arrayT t _ => alignOfScalar dm t
  | .guidT => 1

/-- Size of a non-struct C type. -/
def sizeOfScalar (dm : DataModel) : CType → Nat
  | .intT bits _ => bits / 8
  | .charT => 1
  | .wcharT => dm.wcharBits / 8
  | .voidT => 1
  | .ptr _ => dm.ptrBits / 8
  | .ref _ => dm.ptrBits / 8
  | .arrayT t n => n * sizeOfScalar dm t
  | .guidT => 0

/-- Standard C struct layout over a member list: place each member at the
next offset aligned for it, and round the total size up to the maximal
member alignment.  Returns (size, alignment). -/
def structLayout (dm : DataModel) (ts : List CType) : Nat × Nat :=
  let r := ts.foldl
    (fun acc t =>
      (alignUp acc.1 (alignOfScalar dm t) + sizeOfScalar dm t,
       max acc.2 (alignOfScalar dm t)))
    (0, 1)
  (alignUp r.1 r.2, r.2)

/-- `sizeof` of a C type of the header under data model `dm`. -/
def sizeOf (dm : DataModel) : CType → Nat
  | .guidT => (structLayout dm (GUID_fieldTypes dm)).1
  | t => sizeOfScalar dm t

/-- Bit width of a C type under data model `dm`. -/
def width (dm : DataModel) (t : CType) : Nat := 8 * sizeOf dm t

/-- Signedness of a C integer type (`none` for non-integer types and for
plain `char`/`wchar_t`, whose signedness is implementation-defined). -/
def signedness : CType → Option Bool
  | .intT _ s => some s
  | _ => none

/-- The value of a bit pattern `v` (given as a natural number) when held in
a signed two's-complement integer of width `bits`. -/
def toSigned (bits : Nat) (v : Nat) : Int :=
  if v % 2 ^ bits < 2 ^ (bits - 1) then (v % 2 ^ bits : Int)
  else (v % 2 ^ bits : Int) - 2 ^ bits

/-! ### The GUID value type and its equality operator

`operator == (const GUID & a, const GUID & b) \x7b return memcmp(&a, &b, sizeof(a)); \x7d`

The field values are modelled as natural numbers; `guidBytes` is the object
representation of a GUID on the (padding-free, little-endian) layout of the
header's non-Windows ILP32 branch, and `memcmp` is the C library comparison
over those bytes.  The C++ operator has return type `bool`, so the `int`
result of `memcmp` is converted: nonzero becomes `true`, zero becomes
`false`. -/

/-- A GUID value: `DWORD Data1; WORD Data2; WORD Data3; BYTE Data4[8];`. -/
structure GUID where
  Data1 : Nat
  Data2 : Nat
  Data3 : Nat
  Data4 : List Nat
deriving DecidableEq, Repr

/-- The `n` little-endian bytes of a value. -/
def bytesLE : Nat → Nat → List Nat
  | 0, _ => []
  | n + 1, v => v % 256 :: bytesLE n (v / 256)

/-- The 16-byte object representation of a GUID (little-endian fields,
no padding). -/
def guidBytes (g : GUID) : List Nat :=
  bytesLE 4 g.Data1 ++ bytesLE 2 g.Data2 ++ bytesLE 2 g.Data3 ++
    g.Data4.map (· % 256)

/-- C `memcmp` over byte lists: 0 when equal, otherwise the (signed)
difference of the first differing bytes. -/
def memcmp : List Nat → List Nat → Int
  | a :: as, b :: bs => if a = b then memcmp as bs else (a : Int) - (b : Int)
  | _, _ => 0

/-- The header's `operator ==` on GUID: it returns the raw `memcmp` result
converted to `bool` (nonzero becomes `true`). -/
def guidEqOp (a b : GUID) : Bool := memcmp (guidBytes a) (guidBytes b) ≠ 0

/-- The all-zero GUID value. -/
def zeroGUID : GUID := ⟨0, 0, 0, [0, 0, 0, 0, 0, 0, 0, 0]⟩

/-- A GUID value differing from `zeroGUID` in its first byte. -/
def sampleGUID : GUID := ⟨1, 0, 0, [0, 0, 0, 0, 0, 0, 0, 0]⟩

/-! ### Preprocessor constants and macros of the non-Windows branch -/

/-- #define S_OK 0 -/
def S_OK : Nat := 0

/-- #define S_FALSE 1 -/
def S_FALSE : Nat := 1

/-- #define E_NOINTERFACE 0x80004002 -/
def E_NOINTERFACE : Nat := 0x80004002

/-- #define STDAPICALLTYPE : expands to no tokens. -/
def STDAPICALLTYPE : List String := []

/-- #define STDMETHODCALLTYPE : expands to no tokens. -/
def STDMETHODCALLTYPE : List String := []

/-- #define STDMETHODIMP int -/
def STDMETHODIMP : List String := ["int"]

/-- #define STDMETHOD(name) HRESULT STDMETHODCALLTYPE name -/
def STDMETHOD (name : String) : List String :=
  "HRESULT" :: STDMETHODCALLTYPE ++ [name]

/-- #define STDMETHOD_(type,name) type STDMETHODCALLTYPE name -/
def STDMETHOD_ (ty name : String) : List String :=
  ty :: STDMETHODCALLTYPE ++ [name]

/-- #define DLLEXPORT : on the non-Windows branch it expands to no tokens. -/
def DLLEXPORT_nonWindows : List String := []

/-- #define DLLEXPORT __declspec(dllexport) : the Windows branch. -/
def DLLEXPORT_windows : List String := ["__declspec(dllexport)"]

/-! ### The IUnknown interface declaration -/

/-- A declared C++ method: name, parameter types, return type, and whether
it is declared pure virtual (`= 0`). -/
structure CMethod where
  name : String
  params : List CType
  ret : CType
  pureVirtual : Bool
deriving DecidableEq, Repr

/-- The member declarations of `struct IUnknown`, in order:
`virtual HRESULT QueryInterface(REFIID, void ** out) = 0;`
`virtual ULONG AddRef() = 0;`
`virtual ULONG Release() = 0;`. -/
def IUnknown_methods (dm : DataModel) : List CMethod :=
  [⟨"QueryInterface", [CTy.REFIID, .ptr (.ptr .voidT)], CTy.HRESULT dm, true⟩,
   ⟨"AddRef", [], CTy.ULONG dm, true⟩,
   ⟨"Release", [], CTy.ULONG dm, true⟩]

/-! ## Claims -/

/-- Claim C1 (code bug): the header's `operator ==` on GUID is supposed to
return `true` exactly when all 16 bytes agree, but it returns the raw
`memcmp` result converted to `bool`, which is the exact opposite: on two
GUIDs with identical byte content (here the all-zero GUID compared with
itself) it returns `false`, and on GUIDs whose bytes differ it returns
`true`. -/
theorem C1_guid_eq_inverted :
    guidBytes zeroGUID = guidBytes zeroGUID ∧
    guidEqOp zeroGUID zeroGUID = false ∧
    guidBytes zeroGUID ≠ guidBytes sampleGUID ∧
    guidEqOp zeroGUID sampleGUID = true := by
  decide

/-- Claim C2, counterexample: on the LP64 data model (64-bit Linux/macOS,
a real non-Windows platform target) `DWORD` is `unsigned long`, which is
8 bytes, so `sizeof(GUID)` is 24, not 16: the claim that `sizeof(GUID)`
equals 16 on every platform target is false. -/
theorem C2_sizeof_guid_cex :
    sizeOf LP64 CTy.GUID = 24 ∧ sizeOf LP64 CTy.GUID ≠ 16 ∧
    sizeOf LP64 (CTy.DWORD LP64) = 8 := by
  decide

/-- Claim C2, amended: on platform targets whose data model gives `long`
32 bits (ILP32, and LLP64), `sizeof(GUID)` is 16 and the struct is one
4-byte field, two 2-byte fields, then an 8-byte array of 8 one-byte
elements, in that order; on LP64 targets `sizeof(GUID)` is 24. -/
theorem C2_sizeof_guid_amended :
    sizeOf ILP32 CTy.GUID = 16 ∧
    (GUID_fieldTypes ILP32).map (sizeOf ILP32) = [4, 2, 2, 8] ∧
    GUID_fieldTypes ILP32 =
      [CTy.DWORD ILP32, CTy.WORD ILP32, CTy.WORD ILP32,
       .arrayT (CTy.BYTE ILP32) 8] ∧
    sizeOf ILP32 (CTy.BYTE ILP32) = 1 ∧
    sizeOf LLP64 CTy.GUID = 16 ∧
    sizeOf LP64 CTy.GUID = 24 := by
  decide

/-- Claim C3: the status-code constants of the header have exactly the
values `S_OK = 0`, `S_FALSE = 1`, `E_NOINTERFACE = 0x80004002`. -/
theorem C3_status_constants :
    S_OK = 0 ∧ S_FALSE = 1 ∧ E_NOINTERFACE = 0x80004002 := by
  decide

/-- Claim C4, counterexample: on the LP64 data model (a real non-Windows
target) `UINT`, `DWORD`, `ULONG` and `LONG` are all `long`-based and hence
64 bits wide, so the claim that they are exactly 32 bits wide on the
non-Windows branch is false. -/
theorem C4_widths_cex :
    width LP64 (CTy.UINT LP64) = 64 ∧
    width LP64 (CTy.DWORD LP64) = 64 ∧
    width LP64 (CTy.ULONG LP64) = 64 ∧
    width LP64 (CTy.LONG LP64) = 64 := by
  decide

/-- Claim C4, amended: on the non-Windows branch, `UINT`, `DWORD`, `ULONG`
are unsigned and `INT`, `LONG` signed integer types; `INT` is 32 bits on
every supported data model, while `UINT`, `DWORD`, `ULONG`, `LONG` have
the width of `long`: 32 bits on ILP32 but 64 bits on LP64. -/
theorem C4_widths_amended :
    (width ILP32 (CTy.UINT ILP32) = 32 ∧
     width ILP32 (CTy.DWORD ILP32) = 32 ∧
     width ILP32 (CTy.ULONG ILP32) = 32 ∧
     width ILP32 (CTy.INT ILP32) = 32 ∧
     width ILP32 (CTy.LONG ILP32) = 32) ∧
    (width LP64 (CTy.INT LP64) = 32 ∧
     width LP64 (CTy.UINT LP64) = 64 ∧
     width LP64 (CTy.DWORD LP64) = 64 ∧
     width LP64 (CTy.ULONG LP64) = 64 ∧
     width LP64 (CTy.LONG LP64) = 64) ∧
    (∀ dm, signedness (CTy.UINT dm) = some false ∧
      signedness (CTy.DWORD dm) = some false ∧
      signedness (CTy.ULONG dm) = some false ∧
      signedness (CTy.INT dm) = some true ∧
      signedness (CTy.LONG dm) = some true) := by
  refine ⟨by decide, by decide, fun dm => ⟨rfl, rfl, rfl, rfl, rfl⟩⟩

/-- Claim C5: on the non-Windows branch, `WORD`, `USHORT` and `VARTYPE`
are unsigned 16-bit integer types, `SHORT` is a signed 16-bit integer
type, and `BYTE` is an unsigned 8-bit integer type, on every supported
data model. -/
theorem C5_small_widths (dm : DataModel) (h : dm ∈ nonWindowsModels) :
    width dm (CTy.WORD dm) = 16 ∧ signedness (CTy.WORD dm) = some false ∧
    width dm (CTy.USHORT dm) = 16 ∧ signedness (CTy.USHORT dm) = some false ∧
    width dm (CTy.VARTYPE dm) = 16 ∧ signedness (CTy.VARTYPE dm) = some false ∧
    width dm (CTy.SHORT dm) = 16 ∧ signedness (CTy.SHORT dm) = some true ∧
    width dm (CTy.BYTE dm) = 8 ∧ signedness (CTy.BYTE dm) = some false := by
  fin_cases h <;> decide

theorem C5_small_widths_witness :
    ILP32 ∈ nonWindowsModels ∧
    (width ILP32 (CTy.WORD ILP32) = 16 ∧
     signedness (CTy.WORD ILP32) = some false ∧
     width ILP32 (CTy.USHORT ILP32) = 16 ∧
     signedness (CTy.USHORT ILP32) = some false ∧
     width ILP32 (CTy.VARTYPE ILP32) = 16 ∧
     signedness (CTy.VARTYPE ILP32) = some false ∧
     width ILP32 (CTy.SHORT ILP32) = 16 ∧
     signedness (CTy.SHORT ILP32) = some true ∧
     width ILP32 (CTy.BYTE ILP32) = 8 ∧
     signedness (CTy.BYTE ILP32) = some false) :=
  ⟨by decide, C5_small_widths ILP32 (by decide)⟩

/-- Claim C6: `HRESULT` is a signed 32-bit integer type on every supported
data model of the non-Windows branch; the bit pattern `E_NOINTERFACE` held
in a signed 32-bit `HRESULT` is negative (high bit set, denoting failure),
while `S_OK` and `S_FALSE` held as `HRESULT` are nonnegative. -/
theorem C6_hresult (dm : DataModel) (h : dm ∈ nonWindowsModels) :
    width dm (CTy.HRESULT dm) = 32 ∧
    signedness (CTy.HRESULT dm) = some true ∧
    toSigned 32 E_NOINTERFACE < 0 ∧
    0 ≤ toSigned 32 S_OK ∧ 0 ≤ toSigned 32 S_FALSE := by
  fin_cases h <;> exact ⟨by decide, by decide, by decide, by decide, by decide⟩

theorem C6_hresult_witness :
    ILP32 ∈ nonWindowsModels ∧
    (width ILP32 (CTy.HRESULT ILP32) = 32 ∧
     signedness (CTy.HRESULT ILP32) = some true ∧
     toSigned 32 E_NOINTERFACE < 0 ∧
     0 ≤ toSigned 32 S_OK ∧ 0 ≤ toSigned 32 S_FALSE) :=
  ⟨by decide, C6_hresult ILP32 (by decide)⟩

/-- Claim C7: the alias typedefs denote exactly their target types:
`LCID` is `DWORD`, `SCODE` is `LONG`, `IID` is `GUID`, and `TCHAR` and
`OLECHAR` are `WCHAR`, under every data model. -/
theorem C7_aliases (dm : DataModel) :
    CTy.LCID dm = CTy.DWORD dm ∧
    CTy.SCODE dm = CTy.LONG dm ∧
    CTy.IID = CTy.GUID ∧
    CTy.TCHAR = CTy.WCHAR ∧
    CTy.OLECHAR = CTy.WCHAR :=
  ⟨rfl, rfl, rfl, rfl, rfl⟩

theorem C7_aliases_witness :
    CTy.LCID ILP32 = CTy.DWORD ILP32 ∧
    CTy.SCODE ILP32 = CTy.LONG ILP32 ∧
    CTy.IID = CTy.GUID ∧
    CTy.TCHAR = CTy.WCHAR ∧
    CTy.OLECHAR = CTy.WCHAR :=
  C7_aliases ILP32

/-- Claim C8: `IUnknown` declares exactly three methods, all pure virtual:
`QueryInterface` taking a `REFIID` and a `void**` and returning `HRESULT`,
then `AddRef` and `Release`, each with no parameters and returning
`ULONG`. -/
theorem C8_iunknown_shape (dm : DataModel) :
    (IUnknown_methods dm).length = 3 ∧
    (IUnknown_methods dm).map CMethod.name =
      ["QueryInterface", "AddRef", "Release"] ∧
    ((IUnknown_methods dm).all fun m => m.pureVirtual) = true ∧
    (IUnknown_methods dm).map CMethod.params =
      [[CTy.REFIID, .ptr (.ptr .voidT)], [], []] ∧
    (IUnknown_methods dm).map CMethod.ret =
      [CTy.HRESULT dm, CTy.ULONG dm, CTy.ULONG dm] :=
  ⟨rfl, rfl, rfl, rfl, rfl⟩

theorem C8_iunknown_shape_witness :
    (IUnknown_methods ILP32).length = 3 ∧
    (IUnknown_methods ILP32).map CMethod.name =
      ["QueryInterface", "AddRef", "Release"] ∧
    ((IUnknown_methods ILP32).all fun m => m.pureVirtual) = true ∧
    (IUnknown_methods ILP32).map CMethod.params =
      [[CTy.REFIID, .ptr (.ptr .voidT)], [], []] ∧
    (IUnknown_methods ILP32).map CMethod.ret =
      [CTy.HRESULT ILP32, CTy.ULONG ILP32, CTy.ULONG ILP32] :=
  C8_iunknown_shape ILP32

/-- Claim C9: on the non-Windows branch the macros `STDAPICALLTYPE`,
`STDMETHODCALLTYPE` and `DLLEXPORT` expand to no tokens, and
`STDMETHOD(name)` expands to `HRESULT name`, a declaration of a method
named `name` returning `HRESULT`; on the Windows branch `DLLEXPORT`
expands to `__declspec(dllexport)`. -/
theorem C9_macros :
    STDAPICALLTYPE = [] ∧
    STDMETHODCALLTYPE = [] ∧
    DLLEXPORT_nonWindows = [] ∧
    (∀ name : String, STDMETHOD name = ["HRESULT", name]) ∧
    DLLEXPORT_windows = ["__declspec(dllexport)"] :=
  ⟨rfl, rfl, rfl, fun _ => rfl, rfl⟩

theorem C9_macros_witness :
    STDAPICALLTYPE = [] ∧
    STDMETHODCALLTYPE = [] ∧
    DLLEXPORT_nonWindows = [] ∧
    (∀ name : String, STDMETHOD name = ["HRESULT", name]) ∧
    DLLEXPORT_windows = ["__declspec(dllexport)"] :=
  C9_macros

/-- Claim C10: on the non-Windows branch `LPWSTR` is `char*`, a pointer to
the narrow one-byte `char`, and not a pointer to the wide character type
`WCHAR`. -/
theorem C10_lpwstr (dm : DataModel) (h : dm ∈ nonWindowsModels) :
    CTy.LPWSTR = CType.ptr CType.charT ∧
    sizeOf dm CType.charT = 1 ∧
    CTy.LPWSTR ≠ CType.ptr CTy.WCHAR := by
  fin_cases h <;> exact ⟨rfl, rfl, by decide⟩

theorem C10_lpwstr_witness :
    ILP32 ∈ nonWindowsModels ∧
    (CTy.LPWSTR = CType.ptr CType.charT ∧
     sizeOf ILP32 CType.charT = 1 ∧
     CTy.LPWSTR ≠ CType.ptr CTy.WCHAR) :=
  ⟨by decide, C10_lpwstr ILP32 (by decide)⟩
